import Mathlib

/-!
Shallow embedding of the neuronano session controller (src/main.rs `run_app`,
src/app.rs `App`, src/config.rs `Config`, src/ai.rs `clean_markdown`).

External collaborators (the tui_textarea widget's edit operations, the
filesystem, the serde JSON parser) are modelled as explicit parameters; the
in-repository logic (mode routing, dirty tracking, save, search, AI dispatch
and reconciliation) is translated function by function from the source.
-/

/-- Key modifiers of a crossterm key event (the bits the program inspects). -/
structure Mods where
  ctrl : Bool
  shift : Bool
  alt : Bool
deriving DecidableEq, Repr

/-- The exact `KeyModifiers::CONTROL` value (control bit set, all others clear),
used by the Normal-mode patterns which match the modifier set exactly. -/
def Mods.ctrlOnly : Mods := ⟨true, false, false⟩

/-- No modifiers held. -/
def Mods.none : Mods := ⟨false, false, false⟩

/-- Key codes distinguished by the controller; every other key code is
collapsed into `other` (those are only ever forwarded to a text widget). -/
inductive KeyCode where
  | char (c : Char)
  | enter
  | esc
  | other
deriving DecidableEq, Repr

/-- A crossterm key event as seen by `run_app`. -/
structure KeyEvent where
  code : KeyCode
  mods : Mods
deriving DecidableEq, Repr

/-- Model of a tui_textarea `TextArea`: its lines and cursor `(row, col)`. -/
structure TextArea where
  lines : List String
  cursor : Nat × Nat
deriving DecidableEq, Repr

/-- `TextArea::default()`: one empty line, cursor at the top-left corner. -/
def TextArea.empty : TextArea := ⟨[""], (0, 0)⟩

/-- Rust `str::trim()`: drop leading and trailing whitespace characters. -/
def rustTrim (s : String) : String :=
  ⟨((s.data.dropWhile Char.isWhitespace).reverse.dropWhile Char.isWhitespace).reverse⟩

/-- Rust `str::starts_with(p)`. -/
def rustStartsWith (s p : String) : Bool :=
  p.data.isPrefixOf s.data

/-- Split a character list at every newline, keeping empty segments. -/
def splitNl : List Char → List Char → List String
  | [], acc => [⟨acc.reverse⟩]
  | c :: rest, acc =>
      if c = '\n' then ⟨acc.reverse⟩ :: splitNl rest []
      else splitNl rest (c :: acc)

/-- Strip one trailing carriage return, as Rust `lines()` does per line. -/
def stripCr (l : String) : String :=
  if l.data.getLast? = some '\r' then ⟨l.data.dropLast⟩ else l

/-- Rust `str::lines()`: split on a newline, drop the final empty segment
produced by a trailing newline, and strip a trailing carriage return. -/
def rustLines (s : String) : List String :=
  if s = "" then []
  else
    let parts := splitNl s.data []
    let parts := if parts.getLast? = some "" then parts.dropLast else parts
    parts.map stripCr

/-- `TextArea::from(text.lines())`: collect the lines (a `TextArea` always
holds at least one line) and place the cursor at the top-left corner. -/
def TextArea.fromText (s : String) : TextArea :=
  let ls := rustLines s
  ⟨if ls = [] then [""] else ls, (0, 0)⟩

/-- `TextArea::from(vec![l])`. -/
def TextArea.fromLine (l : String) : TextArea := ⟨[l], (0, 0)⟩

/-- `CursorMove::Jump(row, col)`: move the cursor, clamped to the last line
and to the end of the target line (tui_textarea clamps out-of-range jumps). -/
def TextArea.jump (ta : TextArea) (r c : Nat) : TextArea :=
  let row := min r (ta.lines.length - 1)
  let col := min c (ta.lines.getD row "").length
  ⟨ta.lines, (row, col)⟩

/-- The persisted configuration record (src/config.rs). -/
structure Config where
  api_key : String
deriving DecidableEq, Repr

/-- `Config::default()`: empty API key. -/
def Config.default : Config := ⟨""⟩

/-- `Config::load()` (src/config.rs, lines 18-25): if reading `config.json`
succeeds, parse it (the serde parser is the external parameter `parse`, its
failure propagated by `?`); if the read itself fails, fall back to the
default. `read` is `none` when the file is missing or unreadable. -/
def Config.load (read : Option String) (parse : String → Except String Config) :
    Except String Config :=
  match read with
  | some content => parse content
  | none => Except.ok Config.default

/-- `Config::load().unwrap_or(Config::default())` (src/app.rs, line 70): the
configuration obtained by the session constructor. -/
def loadedConfig (read : Option String) (parse : String → Except String Config) :
    Config :=
  match Config.load read parse with
  | Except.ok c => c
  | Except.error _ => Config.default

/-- The mode enumeration (src/app.rs `AppMode`). -/
inductive AppMode where
  | Normal
  | Prompting
  | Setup
  | Processing
  | Search
  | SaveAs
  | ConfirmQuit
deriving DecidableEq, Repr

/-- The session state (src/app.rs `App`). The channel receiver is an
`Option` field in the source; `rxPresent` records whether it is `Some`.
The one-slot channel's content itself lives in the surrounding system
state (`Sys`), not in the `App` struct, just as in the source. -/
structure App where
  textarea : TextArea
  prompt_textarea : TextArea
  setup_textarea : TextArea
  search_textarea : TextArea
  filename_input : TextArea
  should_quit : Bool
  mode : AppMode
  filename : String
  config : Config
  rxPresent : Bool
  is_modified : Bool
  status_message : Option String
deriving DecidableEq, Repr

/-- `App::quit()`. -/
def quit (a : App) : App := { a with should_quit := true }

/-- `App::mark_dirty()`: set the dirty flag and clear the status message. -/
def markDirty (a : App) : App :=
  { a with is_modified := true, status_message := Option.none }

/-- `App::set_status(msg)`. -/
def setStatus (msg : String) (a : App) : App :=
  { a with status_message := some msg }

/-- `App::prompt_save_as()`: switch to SaveAs and pre-fill the filename
field with the current name unless it is the unnamed sentinel. -/
def promptSaveAs (a : App) : App :=
  { a with
    mode := AppMode.SaveAs,
    filename_input :=
      if a.filename ≠ "[No Name]" then TextArea.fromLine a.filename
      else TextArea.empty }

/-- Errors of `App::save_file`: the no-filename check, or an I/O failure of
`fs::write` (whose display text is carried along). -/
inductive SaveErr where
  | noFilename
  | ioFailure (msg : String)
deriving DecidableEq, Repr

/-- The display text of a save error (`format!("{}", e)`). -/
def SaveErr.msg : SaveErr → String
  | SaveErr.noFilename => "No filename specified"
  | SaveErr.ioFailure m => m

deriving instance DecidableEq for Except

/-- Outcome of `App::save_file`: the resulting state, the returned
`Result`, and the attempted `fs::write` call (path and content), if any. -/
structure SaveOut where
  app : App
  result : Except SaveErr Unit
  wrote : Option (String × String)
deriving DecidableEq, Repr

/-- `App::save_file()` (src/app.rs, lines 145-156). `fsFail` is the external
filesystem's answer to `fs::write`: `none` for success, `some e` for an I/O
error with display text `e`. -/
def saveFile (fsFail : Option String) (a : App) : SaveOut :=
  if a.filename = "[No Name]" ∨ a.filename = "" then
    ⟨a, Except.error SaveErr.noFilename, Option.none⟩
  else
    let content := String.intercalate "\n" a.textarea.lines
    match fsFail with
    | Option.none =>
        ⟨setStatus "File Saved!" { a with is_modified := false },
          Except.ok (), some (a.filename, content)⟩
    | some e => ⟨a, Except.error (SaveErr.ioFailure e), some (a.filename, content)⟩

/-- `App::save_config()` (src/app.rs, lines 103-113): copy the trimmed first
line of the setup field into the config, attempt `Config::save` (external
filesystem answer `cfgFail`), and return to Normal mode only on success.
The returned flag records that a config write was attempted. -/
def saveConfig (cfgFail : Option String) (a : App) : App × Bool :=
  match a.setup_textarea.lines.head? with
  | some key =>
      let a2 := { a with config := ⟨rustTrim key⟩ }
      match cfgFail with
      | Option.none => ({ a2 with mode := AppMode.Normal }, true)
      | some _ => (a2, true)
  | Option.none => (a, false)

/-- Rust `str::find(&query)` on a line, at character granularity: the first
index at which `query` occurs as a substring (byte indices of the source
coincide with character indices on the ASCII inputs considered here). -/
def strFind (line query : String) : Option Nat :=
  (List.range (line.length + 1)).find?
    (fun i => query.data.isPrefixOf (line.data.drop i))

/-- The linear search of the Search arm (src/main.rs, lines 191-198): the
first line containing the query, with the match column. -/
def firstMatch : List String → String → Nat → Option (Nat × Nat)
  | [], _, _ => Option.none
  | l :: ls, q, i =>
      match strFind l q with
      | some col => some (i, col)
      | Option.none => firstMatch ls q (i + 1)

/-- `clean_markdown` (src/ai.rs, lines 64-86): drop a leading and a trailing
line that starts (after trimming) with a code fence, and rejoin. -/
def clean_markdown (text : String) : String :=
  let lines := rustLines text
  if lines = [] then ""
  else
    let lines :=
      match lines with
      | first :: rest =>
          if rustStartsWith (rustTrim first) "```" then rest else first :: rest
      | [] => []
    let lines :=
      match lines.getLast? with
      | some last => if rustStartsWith (rustTrim last) "```" then lines.dropLast else lines
      | Option.none => lines
    String.intercalate "\n" lines

/-- The external tui_textarea edit operations consumed by the controller:
`input` (returns whether the event mutated the text), `cut` and `paste`. -/
structure EditOps where
  input : TextArea → KeyEvent → TextArea × Bool
  cut : TextArea → TextArea
  paste : TextArea → TextArea

/-- The external answers a single key step may consult: the widget
operations, the filesystem's answer to `fs::write` of the document, and its
answer to `Config::save`. -/
structure Env where
  edit : EditOps
  fsFail : Option String
  cfgFail : Option String

/-- The snapshot handed to a spawned AI task at dispatch (src/main.rs,
lines 144-148). -/
structure Dispatch where
  apiKey : String
  code : String
  filename : String
  instruction : String
deriving DecidableEq, Repr

/-- Result of processing one key event: the new state, the dispatched AI
snapshot (if any), the attempted document write (if any), and whether a
config write was attempted. -/
structure StepRes where
  app : App
  dispatch : Option Dispatch
  wrote : Option (String × String)
  cfgWrote : Bool
deriving DecidableEq, Repr

/-- The Normal-mode arm (src/main.rs, lines 102-138). The six hotkey
patterns match the modifier set exactly (`KeyModifiers::CONTROL`); anything
else is forwarded to the buffer widget and marks dirty if it mutated. -/
def stepNormal (env : Env) (a : App) (k : KeyEvent) : App × Option (String × String) :=
  if k.code = KeyCode.char 'q' ∧ k.mods = Mods.ctrlOnly then
    (if a.is_modified then { a with mode := AppMode.ConfirmQuit } else quit a,
      Option.none)
  else if k.code = KeyCode.char 'p' ∧ k.mods = Mods.ctrlOnly then
    ({ a with mode := AppMode.Prompting }, Option.none)
  else if k.code = KeyCode.char 'k' ∧ k.mods = Mods.ctrlOnly then
    (markDirty { a with textarea := env.edit.cut a.textarea }, Option.none)
  else if k.code = KeyCode.char 'u' ∧ k.mods = Mods.ctrlOnly then
    (markDirty { a with textarea := env.edit.paste a.textarea }, Option.none)
  else if k.code = KeyCode.char 'o' ∧ k.mods = Mods.ctrlOnly then
    if a.filename ≠ "[No Name]" then
      let r := saveFile env.fsFail a
      match r.result with
      | Except.error e => (setStatus ("Error: " ++ e.msg) r.app, r.wrote)
      | Except.ok _ => (r.app, r.wrote)
    else (promptSaveAs a, Option.none)
  else if k.code = KeyCode.char 'f' ∧ k.mods = Mods.ctrlOnly then
    ({ a with mode := AppMode.Search }, Option.none)
  else
    let p := env.edit.input a.textarea k
    let a2 := { a with textarea := p.1 }
    (if p.2 then markDirty a2 else a2, Option.none)

/-- The Prompting arm (src/main.rs, lines 139-169): Esc exits, Enter
snapshots the inputs, dispatches, and enters Processing; anything else
edits the prompt field. -/
def stepPrompting (e : EditOps) (a : App) (k : KeyEvent) : App × Option Dispatch :=
  match k.code with
  | KeyCode.esc => ({ a with mode := AppMode.Normal }, Option.none)
  | KeyCode.enter =>
      ({ a with mode := AppMode.Processing },
        some ⟨a.config.api_key, String.intercalate "\n" a.textarea.lines,
          a.filename, String.intercalate "\n" a.prompt_textarea.lines⟩)
  | _ => ({ a with prompt_textarea := (e.input a.prompt_textarea k).1 }, Option.none)

/-- The Setup arm (src/main.rs, lines 170-177). -/
def stepSetup (e : EditOps) (cfgFail : Option String) (a : App) (k : KeyEvent) :
    App × Bool :=
  if k.code = KeyCode.esc then (quit a, false)
  else if k.code = KeyCode.char 'q' ∧ k.mods.ctrl = true then (quit a, false)
  else if k.code = KeyCode.enter then saveConfig cfgFail a
  else ({ a with setup_textarea := (e.input a.setup_textarea k).1 }, false)

/-- The Processing arm (src/main.rs, lines 178-185): input is ignored
except the quit combo (key code q with the control bit held). -/
def stepProcessing (a : App) (k : KeyEvent) : App :=
  if k.code = KeyCode.char 'q' ∧ k.mods.ctrl = true then quit a else a

/-- The Search arm (src/main.rs, lines 186-205): Esc exits; Enter runs the
linear search over the buffer lines, jumps the cursor to the first match
(rows and columns pass through `as u16`), then exits; anything else edits
the search field. -/
def stepSearch (e : EditOps) (a : App) (k : KeyEvent) : App :=
  match k.code with
  | KeyCode.esc => { a with mode := AppMode.Normal }
  | KeyCode.enter =>
      let a1 :=
        match a.search_textarea.lines.head? with
        | some query =>
            match firstMatch a.textarea.lines query 0 with
            | some (i, col) =>
                { a with textarea := a.textarea.jump (i % 65536) (col % 65536) }
            | Option.none => a
        | Option.none => a
      { a1 with mode := AppMode.Normal }
  | _ => { a with search_textarea := (e.input a.search_textarea k).1 }

/-- The SaveAs arm (src/main.rs, lines 206-224): Esc cancels; Enter, when
the first line of the filename field trims to something non-empty, stores
the trimmed name, saves (surfacing an error as a status message) and
returns to Normal; a trimmed-empty name does nothing at all. -/
def stepSaveAs (env : Env) (a : App) (k : KeyEvent) : App × Option (String × String) :=
  match k.code with
  | KeyCode.esc => ({ a with mode := AppMode.Normal }, Option.none)
  | KeyCode.enter =>
      (match a.filename_input.lines.head? with
        | some name =>
            if ¬(rustTrim name = "") then
              let a2 := { a with filename := rustTrim name }
              let r := saveFile env.fsFail a2
              let a3 :=
                match r.result with
                | Except.error e => setStatus ("Error: " ++ e.msg) r.app
                | Except.ok _ => r.app
              ({ a3 with mode := AppMode.Normal }, r.wrote)
            else (a, Option.none)
        | Option.none => (a, Option.none))
  | _ => ({ a with filename_input := (env.edit.input a.filename_input k).1 }, Option.none)

/-- The ConfirmQuit arm (src/main.rs, lines 225-246): y/Y saves (or opens
SaveAs when unnamed) and quits only if the save succeeded; n/N quits
without saving; Esc returns to Normal; every other key does nothing. -/
def stepConfirmQuit (fsFail : Option String) (a : App) (k : KeyEvent) :
    App × Option (String × String) :=
  if k.code = KeyCode.char 'y' ∨ k.code = KeyCode.char 'Y' then
    if a.filename = "[No Name]" then (promptSaveAs a, Option.none)
    else
      let r := saveFile fsFail a
      match r.result with
      | Except.error e =>
          ({ setStatus ("Error saving: " ++ e.msg) r.app with mode := AppMode.Normal },
            r.wrote)
      | Except.ok _ => (quit r.app, r.wrote)
  else if k.code = KeyCode.char 'n' ∨ k.code = KeyCode.char 'N' then
    (quit a, Option.none)
  else if k.code = KeyCode.esc then
    ({ a with mode := AppMode.Normal }, Option.none)
  else (a, Option.none)

/-- One key event processed by `run_app`'s mode router (src/main.rs,
lines 101-247). -/
def step (env : Env) (a : App) (k : KeyEvent) : StepRes :=
  match a.mode with
  | AppMode.Normal =>
      let p := stepNormal env a k
      ⟨p.1, Option.none, p.2, false⟩
  | AppMode.Prompting =>
      let p := stepPrompting env.edit a k
      ⟨p.1, p.2, Option.none, false⟩
  | AppMode.Setup =>
      let p := stepSetup env.edit env.cfgFail a k
      ⟨p.1, Option.none, Option.none, p.2⟩
  | AppMode.Processing => ⟨stepProcessing a k, Option.none, Option.none, false⟩
  | AppMode.Search => ⟨stepSearch env.edit a k, Option.none, Option.none, false⟩
  | AppMode.SaveAs =>
      let p := stepSaveAs env a k
      ⟨p.1, Option.none, p.2, false⟩
  | AppMode.ConfirmQuit =>
      let p := stepConfirmQuit env.fsFail a k
      ⟨p.1, Option.none, p.2, false⟩

/-- The driver-loop reconciliation poll (src/main.rs, lines 89-95): if the
receiver is present and the one-slot channel holds a completed result,
replace the whole buffer with its lines and leave Processing via
`set_processing(false)` (src/app.rs, lines 128-134). Returns the new state
and the new channel content. -/
def pollAi (a : App) (slot : Option String) : App × Option String :=
  if a.rxPresent then
    match slot with
    | some response =>
        ({ a with textarea := TextArea.fromText response, mode := AppMode.Normal },
          Option.none)
    | Option.none => (a, slot)
  else (a, slot)

/-- The whole system: the session state, the one-slot channel's content,
and the number of spawned AI tasks that have not yet sent their result. -/
structure Sys where
  app : App
  slot : Option String
  inflight : Nat
deriving DecidableEq, Repr

/-- Number of outstanding AI tasks: spawned tasks that have not sent plus
an unreconciled result sitting in the channel. -/
def outstanding (s : Sys) : Nat :=
  s.inflight + (if s.slot.isSome then 1 else 0)

/-- One transition of the driver loop: a key event handled by the mode
router (spawning a task when it dispatches), a spawned task completing by
sending into the free one-slot channel, or the reconciliation poll. -/
inductive SysStep (e : EditOps) : Sys → Sys → Prop where
  | key (fsFail cfgFail : Option String) (k : KeyEvent) (s : Sys) :
      SysStep e s
        ⟨(step ⟨e, fsFail, cfgFail⟩ s.app k).app, s.slot,
          s.inflight +
            (if (step ⟨e, fsFail, cfgFail⟩ s.app k).dispatch.isSome then 1 else 0)⟩
  | complete (msg : String) (s : Sys) :
      0 < s.inflight → s.slot = Option.none →
      SysStep e s ⟨s.app, some msg, s.inflight - 1⟩
  | poll (s : Sys) :
      SysStep e s ⟨(pollAi s.app s.slot).1, (pollAi s.app s.slot).2, s.inflight⟩

/-- Reachability by any number of system transitions. -/
def SysReach (e : EditOps) : Sys → Sys → Prop :=
  Relation.ReflTransGen (SysStep e)

/-- The protocol invariant: at most one task outstanding, and an
outstanding task forces Processing mode. -/
def SysInv (s : Sys) : Prop :=
  outstanding s ≤ 1 ∧ (1 ≤ outstanding s → s.app.mode = AppMode.Processing)

/-- A trivial instantiation of the external widget operations, used to
evaluate the model on concrete inputs. -/
def trivialEdit : EditOps :=
  ⟨fun ta _ => (ta, false), fun ta => ta, fun ta => ta⟩

/-- Concrete external answers: trivial widget, all writes succeed. -/
def exEnv : Env := ⟨trivialEdit, Option.none, Option.none⟩

/-- A base session state for concrete evaluations: fresh unnamed buffer. -/
def baseApp : App :=
  { textarea := TextArea.empty
    prompt_textarea := TextArea.empty
    setup_textarea := TextArea.empty
    search_textarea := TextArea.empty
    filename_input := TextArea.empty
    should_quit := false
    mode := AppMode.Normal
    filename := "[No Name]"
    config := Config.default
    rxPresent := true
    is_modified := false
    status_message := Option.none }

/-- The Enter key with no modifiers. -/
def keyEnter : KeyEvent := ⟨KeyCode.enter, Mods.none⟩

/-- The plain character x with no modifiers. -/
def keyX : KeyEvent := ⟨KeyCode.char 'x', Mods.none⟩

/-- Ctrl+q with the exact CONTROL modifier set. -/
def keyCtrlQ : KeyEvent := ⟨KeyCode.char 'q', Mods.ctrlOnly⟩

/-- Concrete state for claim C1: Processing, clean buffer, receiver present. -/
def exA1 : App :=
  { baseApp with mode := AppMode.Processing, textarea := ⟨["hello"], (0, 0)⟩ }

/-- Concrete reachable system state for claim C2: Prompting, nothing
outstanding. -/
def exSys : Sys := ⟨{ baseApp with mode := AppMode.Prompting }, Option.none, 0⟩

/-- Concrete state for claim C3: Processing with some text in the buffer. -/
def exA3 : App :=
  { baseApp with mode := AppMode.Processing, textarea := ⟨["abc"], (0, 2)⟩ }

/-- Concrete state for claim C5: Normal mode with a dirty buffer. -/
def exA5 : App := { baseApp with is_modified := true }

/-- Concrete state for claim C6: Search mode, empty query, cursor away from
the origin. -/
def exA6 : App :=
  { baseApp with mode := AppMode.Search, textarea := ⟨["ab", "cd"], (1, 1)⟩ }

/-- Concrete state for claim C9: SaveAs mode, filename field holding only
blanks. -/
def exA9 : App :=
  { baseApp with
    mode := AppMode.SaveAs
    filename_input := TextArea.fromLine "  "
    is_modified := true }

/-- Concrete state for claim C10: ConfirmQuit with a named dirty buffer. -/
def exA10 : App :=
  { baseApp with
    mode := AppMode.ConfirmQuit
    filename := "notes.txt"
    is_modified := true }

/-- A serde stand-in that rejects every input, for the C7 witness. -/
def parseRejectAll : String → Except String Config :=
  fun _ => Except.error "malformed"

/-- A key step dispatches only on Enter in Prompting mode, and then the new
mode is Processing. -/
lemma step_dispatch_shape (env : Env) (a : App) (k : KeyEvent)
    (h : (step env a k).dispatch.isSome = true) :
    a.mode = AppMode.Prompting ∧ k.code = KeyCode.enter ∧
      (step env a k).app.mode = AppMode.Processing := by
  cases hm : a.mode <;> simp only [step, hm] at h ⊢
  case Prompting =>
    cases hk : k.code <;> simp [stepPrompting, hk] at h ⊢
  all_goals simp at h

/-- In Processing mode a key step never dispatches and never leaves
Processing mode. -/
lemma step_processing_frame (env : Env) (a : App) (k : KeyEvent)
    (h : a.mode = AppMode.Processing) :
    (step env a k).app.mode = AppMode.Processing ∧
      (step env a k).dispatch = Option.none := by
  simp only [step, h, stepProcessing]
  split <;> simp [quit, h]

/-- Outstanding count after a key step: it grows exactly by the dispatch. -/
lemma outstanding_key (e : EditOps) (fsFail cfgFail : Option String)
    (k : KeyEvent) (s : Sys) :
    outstanding
      ⟨(step ⟨e, fsFail, cfgFail⟩ s.app k).app, s.slot,
        s.inflight +
          (if (step ⟨e, fsFail, cfgFail⟩ s.app k).dispatch.isSome then 1 else 0)⟩ =
      outstanding s +
        (if (step ⟨e, fsFail, cfgFail⟩ s.app k).dispatch.isSome then 1 else 0) := by
  simp only [outstanding]
  exact Nat.add_right_comm _ _ _

/-- Each system transition preserves the protocol invariant. -/
lemma sysInv_step {e : EditOps} {s t : Sys} (hi : SysInv s) (h : SysStep e s t) :
    SysInv t := by
  obtain ⟨h1, h2⟩ := hi
  cases h with
  | key fsFail cfgFail k s =>
      constructor
      · rw [outstanding_key]
        by_cases hd : (step ⟨e, fsFail, cfgFail⟩ s.app k).dispatch.isSome = true
        · obtain ⟨hm, _, _⟩ := step_dispatch_shape _ _ _ hd
          have h0 : outstanding s = 0 := by
            by_contra hne
            have hp := h2 (Nat.one_le_iff_ne_zero.mpr hne)
            rw [hm] at hp
            exact absurd hp (by simp)
          rw [h0, hd]
          simp
        · simp only [Bool.not_eq_true] at hd
          rw [hd]
          simpa using h1
      · intro hge
        rw [outstanding_key] at hge
        by_cases hd : (step ⟨e, fsFail, cfgFail⟩ s.app k).dispatch.isSome = true
        · exact (step_dispatch_shape _ _ _ hd).2.2
        · simp only [Bool.not_eq_true] at hd
          rw [hd] at hge
          simp only [Bool.false_eq_true, if_false, Nat.add_zero] at hge
          exact (step_processing_frame _ _ _ (h2 hge)).1
  | complete msg s hpos hslot =>
      have h1b : s.inflight ≤ 1 := by
        simp only [outstanding, hslot] at h1
        simpa using h1
      constructor
      · simp only [outstanding, Option.isSome_some]
        simp only [if_pos]
        omega
      · intro _
        apply h2
        simp only [outstanding]
        omega
  | poll s =>
      by_cases hrx : s.app.rxPresent = true
      · cases hslot : s.slot with
        | none =>
            have e1 : pollAi s.app Option.none = (s.app, Option.none) := by
              unfold pollAi
              split <;> rfl
            rw [e1]
            constructor
            · have hb := h1
              simp [outstanding, hslot] at hb
              simp [outstanding]
              omega
            · intro hge
              have hge2 : 1 ≤ s.inflight := by simpa [outstanding] using hge
              apply h2
              simp [outstanding, hslot]
              omega
        | some r =>
            have e1 : pollAi s.app (some r) = ({ s.app with textarea := TextArea.fromText r, mode := AppMode.Normal }, Option.none) := by
              simp [pollAi, hrx]
            rw [e1]
            have hzero : s.inflight = 0 := by
              have hb := h1
              simp [outstanding, hslot] at hb
              omega
            constructor
            · simp [outstanding, hzero]
            · intro hge
              exfalso
              simp [outstanding, hzero] at hge
      · simp only [Bool.not_eq_true] at hrx
        have e1 : pollAi s.app s.slot = (s.app, s.slot) := by
          simp [pollAi, hrx]
        rw [e1]
        exact ⟨h1, h2⟩

/-- The protocol invariant holds in every reachable state. -/
lemma sysInv_reach {e : EditOps} {s0 s : Sys} (h0 : SysInv s0)
    (h : SysReach e s0 s) : SysInv s := by
  induction h with
  | refl => exact h0
  | tail _ hst ih => exact sysInv_step ih hst

/-- Claim C3: while the mode is Processing, every key event other than the
quit combo (key code q with the control bit held) leaves the entire session
state unchanged, and the quit combo changes it only by setting the
`should_quit` flag; no dispatch, no document write, no config write. -/
theorem C3_processing_ignores_input (env : Env) (a : App) (k : KeyEvent)
    (h : a.mode = AppMode.Processing) :
    (¬(k.code = KeyCode.char 'q' ∧ k.mods.ctrl = true) → (step env a k).app = a) ∧
    ((k.code = KeyCode.char 'q' ∧ k.mods.ctrl = true) →
      (step env a k).app = quit a) ∧
    (step env a k).dispatch = Option.none ∧
    (step env a k).wrote = Option.none ∧
    (step env a k).cfgWrote = false := by
  by_cases hq : k.code = KeyCode.char 'q' ∧ k.mods.ctrl = true
  · simp [step, h, stepProcessing, hq]
  · simp [step, h, stepProcessing, hq]

/-- Witness for C3: a plain x key in Processing changes nothing. -/
theorem C3_processing_ignores_input_witness :
    exA3.mode = AppMode.Processing ∧ (step exEnv exA3 keyX).app = exA3 :=
  ⟨rfl, (C3_processing_ignores_input exEnv exA3 keyX rfl).1 (by decide)⟩

/-- Claim C4: with the unnamed sentinel or an empty filename, `save_file`
returns the no-filename error, attempts no write, and returns the state
completely unchanged (in particular `is_modified`, the buffer, and the
filename keep their values). -/
theorem C4_save_without_filename (fsFail : Option String) (a : App)
    (h : a.filename = "[No Name]" ∨ a.filename = "") :
    saveFile fsFail a = ⟨a, Except.error SaveErr.noFilename, Option.none⟩ := by
  simp only [saveFile, if_pos h]

/-- Witness for C4: saving the fresh unnamed session fails with the
no-filename error and changes nothing. -/
theorem C4_save_without_filename_witness :
    (baseApp.filename = "[No Name]" ∨ baseApp.filename = "") ∧
      saveFile Option.none baseApp =
        ⟨baseApp, Except.error SaveErr.noFilename, Option.none⟩ :=
  ⟨Or.inl rfl, C4_save_without_filename Option.none baseApp (Or.inl rfl)⟩

/-- Claim C5: in Normal mode the quit combo (Ctrl+q, exact modifier set)
moves a dirty session to ConfirmQuit, leaving `should_quit` (and all other
fields) untouched, and quits directly only when the session is clean. -/
theorem C5_dirty_never_quits_directly (env : Env) (a : App) (k : KeyEvent)
    (h : a.mode = AppMode.Normal)
    (hk : k.code = KeyCode.char 'q' ∧ k.mods = Mods.ctrlOnly) :
    (a.is_modified = true →
      (step env a k).app = { a with mode := AppMode.ConfirmQuit }) ∧
    (a.is_modified = false → (step env a k).app = quit a) := by
  constructor <;> intro hm <;> simp [step, h, stepNormal, hk.1, hk.2, hm]

/-- Witness for C5: Ctrl+q on a dirty Normal-mode session goes to
ConfirmQuit. -/
theorem C5_dirty_never_quits_directly_witness :
    exA5.mode = AppMode.Normal ∧ exA5.is_modified = true ∧
      (step exEnv exA5 keyCtrlQ).app = { exA5 with mode := AppMode.ConfirmQuit } :=
  ⟨rfl, rfl,
    (C5_dirty_never_quits_directly exEnv exA5 keyCtrlQ rfl ⟨rfl, rfl⟩).1 rfl⟩

/-- Claim C9: Enter in SaveAs mode with a filename whose first line trims
to the empty string changes nothing at all: the state (mode still SaveAs,
filename, dirty flag) is untouched and no write is attempted. -/
theorem C9_saveas_blank_name_noop (env : Env) (a : App) (k : KeyEvent)
    (n : String) (h : a.mode = AppMode.SaveAs) (hk : k.code = KeyCode.enter)
    (hn : a.filename_input.lines.head? = some n) (ht : rustTrim n = "") :
    step env a k = ⟨a, Option.none, Option.none, false⟩ := by
  simp [step, h, stepSaveAs, hk, hn, ht]

/-- Witness for C9: Enter with a blank-only filename field does nothing. -/
theorem C9_saveas_blank_name_noop_witness :
    exA9.mode = AppMode.SaveAs ∧
      exA9.filename_input.lines.head? = some "  " ∧ rustTrim "  " = "" ∧
      step exEnv exA9 keyEnter = ⟨exA9, Option.none, Option.none, false⟩ :=
  ⟨rfl, rfl, by decide,
    C9_saveas_blank_name_noop exEnv exA9 keyEnter "  " rfl rfl rfl (by decide)⟩

/-- Claim C10: in ConfirmQuit mode every key other than y, Y, n, N and Esc
leaves the whole session state unchanged and triggers no write, no
dispatch, and no forwarding to any text field. -/
theorem C10_confirmquit_other_keys_noop (env : Env) (a : App) (k : KeyEvent)
    (h : a.mode = AppMode.ConfirmQuit)
    (h1 : k.code ≠ KeyCode.char 'y') (h2 : k.code ≠ KeyCode.char 'Y')
    (h3 : k.code ≠ KeyCode.char 'n') (h4 : k.code ≠ KeyCode.char 'N')
    (h5 : k.code ≠ KeyCode.esc) :
    step env a k = ⟨a, Option.none, Option.none, false⟩ := by
  simp [step, h, stepConfirmQuit, h1, h2, h3, h4, h5]

/-- Witness for C10: a plain x key in ConfirmQuit changes nothing. -/
theorem C10_confirmquit_other_keys_noop_witness :
    exA10.mode = AppMode.ConfirmQuit ∧
      step exEnv exA10 keyX = ⟨exA10, Option.none, Option.none, false⟩ :=
  ⟨rfl, C10_confirmquit_other_keys_noop exEnv exA10 keyX rfl (by decide)
    (by decide) (by decide) (by decide) (by decide)⟩

/-- Claim C7: whenever the persisted config is missing/unreadable (the read
fails) or malformed (the parse fails), the session constructor's
configuration is the empty default; no error propagates. -/
theorem C7_config_load_never_fails (read : Option String)
    (parse : String → Except String Config)
    (h : read = Option.none ∨
      ∃ s e, read = some s ∧ parse s = Except.error e) :
    loadedConfig read parse = Config.default := by
  rcases h with h | ⟨s, e, hs, hp⟩
  · simp [loadedConfig, Config.load, h]
  · simp [loadedConfig, Config.load, hs, hp]

/-- Witness for C7: a present but malformed config file yields the default
(empty API key). -/
theorem C7_config_load_never_fails_witness :
    ((some "not json" : Option String) = Option.none ∨
      ∃ s e, (some "not json" : Option String) = some s ∧
        parseRejectAll s = Except.error e) ∧
    loadedConfig (some "not json") parseRejectAll = Config.default :=
  ⟨Or.inr ⟨"not json", "malformed", rfl, rfl⟩,
    C7_config_load_never_fails (some "not json") parseRejectAll
      (Or.inr ⟨"not json", "malformed", rfl, rfl⟩)⟩

/-- Claim C8: stripping markdown from a fenced block returns exactly the
inner line: both fence lines are removed and nothing trails. -/
theorem C8_clean_markdown_strips_fences :
    clean_markdown "```\nHELLO\n```" = "HELLO" := by decide

/-- An empty pattern occurs at index 0 of every line. -/
lemma strFind_empty_query (line : String) : strFind line "" = some 0 := by
  unfold strFind
  rw [List.range_succ_eq_map]
  rw [List.find?_cons]
  have h0 : (("" : String).data.isPrefixOf (line.data.drop 0)) = true := by
    cases line.data <;> rfl
  rw [h0]

/-- With an empty query the linear search stops at the very first line,
column 0. -/
lemma firstMatch_empty_query (ls : List String) (i : Nat) (h : ls ≠ []) :
    firstMatch ls "" i = some (i, 0) := by
  cases ls with
  | nil => exact absurd rfl h
  | cons l t => simp [firstMatch, strFind_empty_query]

/-- Claim C6, counterexample: with an empty query, Enter in Search mode is
not a cursor no-op — on the concrete buffer ["ab", "cd"] with cursor at
(1, 1), the empty query matches at the start of line 0 and the cursor is
jumped to (0, 0). -/
theorem C6_counterexample :
    exA6.mode = AppMode.Search ∧
    exA6.search_textarea.lines.head? = some "" ∧
    exA6.textarea.cursor = (1, 1) ∧
    (step exEnv exA6 keyEnter).app.mode = AppMode.Normal ∧
    (step exEnv exA6 keyEnter).app.textarea.lines = exA6.textarea.lines ∧
    (step exEnv exA6 keyEnter).app.textarea.cursor = (0, 0) ∧
    (step exEnv exA6 keyEnter).app.textarea.cursor ≠ exA6.textarea.cursor := by
  decide

/-- Claim C6 as amended: Enter in Search mode with an empty query exits to
Normal and leaves the buffer content (and the rest of the session)
unchanged, but it does move the cursor: the empty query matches at the
start of the first line, so the cursor jumps to (0, 0). -/
theorem C6_empty_query_exits_search (env : Env) (a : App) (k : KeyEvent)
    (h : a.mode = AppMode.Search) (hk : k.code = KeyCode.enter)
    (hq : a.search_textarea.lines.head? = some "")
    (hne : a.textarea.lines ≠ []) :
    (step env a k).app.mode = AppMode.Normal ∧
    (step env a k).app.textarea.lines = a.textarea.lines ∧
    (step env a k).app.textarea.cursor = (0, 0) ∧
    (step env a k).app.is_modified = a.is_modified ∧
    (step env a k).app.filename = a.filename ∧
    (step env a k).app.should_quit = a.should_quit := by
  simp only [step, h, stepSearch, hk, hq]
  rw [firstMatch_empty_query a.textarea.lines 0 hne]
  simp [TextArea.jump]

/-- Witness for the amended C6. -/
theorem C6_empty_query_exits_search_witness :
    exA6.mode = AppMode.Search ∧ keyEnter.code = KeyCode.enter ∧
    exA6.search_textarea.lines.head? = some "" ∧ exA6.textarea.lines ≠ [] ∧
    (step exEnv exA6 keyEnter).app.mode = AppMode.Normal :=
  ⟨rfl, rfl, rfl, by decide,
    (C6_empty_query_exits_search exEnv exA6 keyEnter rfl rfl rfl (by decide)).1⟩

/-- Claim C1: evaluation of the reconciliation poll at the failing input.
With a clean Processing session and the completed error result
"Error: rate limited" in the channel, the poll replaces the whole buffer
with the error text and returns to Normal mode — but `is_modified` stays
false, although the spec requires the AI-applied rewrite to count as an
unsaved modification. -/
theorem C1_reconcile_does_not_mark_dirty :
    exA1.is_modified = false ∧ exA1.rxPresent = true ∧
    (pollAi exA1 (some "Error: rate limited")).1.textarea.lines =
      ["Error: rate limited"] ∧
    (pollAi exA1 (some "Error: rate limited")).1.mode = AppMode.Normal ∧
    (pollAi exA1 (some "Error: rate limited")).1.is_modified = false := by
  decide

/-- Claim C2: in every system state reachable from a state with no
outstanding AI task, a key event dispatches only on Enter in Prompting
mode, dispatch enters Processing mode, and at the moment of dispatch no
task is outstanding (in particular no key event in Processing mode ever
causes a second dispatch, since dispatch requires Prompting mode). -/
theorem C2_at_most_one_dispatch (e : EditOps) (s0 s : Sys)
    (h0 : outstanding s0 = 0) (hr : SysReach e s0 s)
    (fsFail cfgFail : Option String) (k : KeyEvent)
    (hd : (step ⟨e, fsFail, cfgFail⟩ s.app k).dispatch.isSome = true) :
    s.app.mode = AppMode.Prompting ∧ k.code = KeyCode.enter ∧
      (step ⟨e, fsFail, cfgFail⟩ s.app k).app.mode = AppMode.Processing ∧
      outstanding s = 0 := by
  have hinv0 : SysInv s0 := by
    constructor
    · omega
    · intro hge
      exact absurd hge (by omega)
  have hinv : SysInv s := sysInv_reach hinv0 hr
  obtain ⟨hm, hk, hp⟩ := step_dispatch_shape _ _ _ hd
  refine ⟨hm, hk, hp, ?_⟩
  by_contra hne
  have hmode := hinv.2 (Nat.one_le_iff_ne_zero.mpr hne)
  rw [hm] at hmode
  exact absurd hmode (by simp)

/-- Witness for C2: from the concrete Prompting state with nothing
outstanding, Enter dispatches, enters Processing, and finds no outstanding
task. -/
theorem C2_at_most_one_dispatch_witness :
    outstanding exSys = 0 ∧
    (step ⟨trivialEdit, Option.none, Option.none⟩ exSys.app keyEnter).dispatch.isSome = true ∧
    (exSys.app.mode = AppMode.Prompting ∧ keyEnter.code = KeyCode.enter ∧
      (step ⟨trivialEdit, Option.none, Option.none⟩ exSys.app keyEnter).app.mode = AppMode.Processing ∧
      outstanding exSys = 0) :=
  ⟨rfl, rfl,
    C2_at_most_one_dispatch trivialEdit exSys exSys rfl
      Relation.ReflTransGen.refl Option.none Option.none keyEnter rfl⟩

/-- Claim C1 as amended: for every completed AI task result delivered
through the one-slot channel, the poll replaces the entire buffer with the
delivered text and sets the mode to Normal, consuming the message — but it
leaves `is_modified` exactly as it was (the reconciliation code never
marks the session dirty). -/
theorem C1_reconcile_replaces_buffer (a : App) (r : String)
    (h : a.rxPresent = true) :
    (pollAi a (some r)).1.textarea = TextArea.fromText r ∧
    (pollAi a (some r)).1.mode = AppMode.Normal ∧
    (pollAi a (some r)).1.is_modified = a.is_modified ∧
    (pollAi a (some r)).2 = Option.none := by
  simp [pollAi, h]

/-- Witness for the amended C1. -/
theorem C1_reconcile_replaces_buffer_witness :
    exA1.rxPresent = true ∧
    ((pollAi exA1 (some "HELLO")).1.textarea = TextArea.fromText "HELLO" ∧
      (pollAi exA1 (some "HELLO")).1.mode = AppMode.Normal ∧
      (pollAi exA1 (some "HELLO")).1.is_modified = exA1.is_modified ∧
      (pollAi exA1 (some "HELLO")).2 = Option.none) :=
  ⟨rfl, C1_reconcile_replaces_buffer exA1 "HELLO" rfl⟩
